import Mathlib

/-!
Verification of `MTP::ConcurrentSender`
(`src/Telegram/SourceFiles/mtproto/concurrent_sender.h`).

The header defines the handler-adapter layer (`setDoneHandler`,
`setFailHandler`, `SpecificRequestBuilder::done`, `SpecificRequestBuilder::fail`),
the `FailSkipPolicy` enum and the request-handle `SentRequestWrap`.  The
bodies of the pending-registry dispatcher
(`senderRequestRegister`/`senderRequestDone`/`senderRequestFail`/
`senderRequestCancel`/`senderRequestCancelAll`) live in
`concurrent_sender.cpp`, which is not among the sources; those are modelled
from the spec (sections 3, 4.3, 5 and 6), as marked on each definition.
-/

namespace MTP

/-- `mtpRequestId` from `mtproto/core_types.h`: an opaque transport-assigned
identifier.  Only equality of ids matters to this layer. -/
abbrev mtpRequestId := Int

/-- Modelled from the spec: the error-value collaborator (spec section 6) is an
opaque value classified into at least a flood/rate-limit category, a
residual category, and (spec section 3, `FailSkipPolicy.Simple`) a subset
considered handled elsewhere.  The `RPCError` class itself is external
(forward-declared only in the header). -/
inductive ErrorClass where
  | flood
  | handledElsewhere
  | other
deriving DecidableEq, Repr

/-- Modelled from the spec: an `RPCError` value, abstracted to the one piece
of structure this layer consumes — its failure class. -/
structure RPCError where
  errorClass : ErrorClass
deriving DecidableEq, Repr

/-- `ConcurrentSender::FailSkipPolicy` (header lines 42-46). -/
inductive FailSkipPolicy where
  | Simple
  | HandleFlood
  | HandleAll
deriving DecidableEq, Repr

/-- Modelled from the spec: which failure classes are forwarded to the fail
handler under each policy (spec section 3): `Simple` does not forward the
handled-elsewhere subset, which includes at minimum the flood class;
`HandleFlood` additionally forwards the flood class; `HandleAll` forwards
every class.  The code applying the policy (`RPCFailHandler`) lives in the
missing `concurrent_sender.cpp`. -/
def forwardedToFailHandler : FailSkipPolicy → ErrorClass → Bool
  | .Simple, .flood => false
  | .Simple, .handledElsewhere => false
  | .Simple, .other => true
  | .HandleFlood, .flood => true
  | .HandleFlood, .handledElsewhere => false
  | .HandleFlood, .other => true
  | .HandleAll, _ => true

/-! ## Handler-adapter layer (embedded from the header)

User handlers are modelled as functions returning a `HandlerRun`: the list
of user-level calls they perform (so invocations are observable) paired
with an `Except` telling whether the handler body completed or threw a C++
exception. -/

/-- An opaque C++ exception escaping a user handler or `Response::read`. -/
inductive HandlerExn where
  | exn
deriving DecidableEq, Repr

/-- One observable invocation of a user-supplied handler, recording exactly
the arguments the handler's shape receives. -/
inductive UserCall (Resp : Type) where
  | full (requestId : mtpRequestId) (result : Resp)
  | resp (result : Resp)
  | onlyId (requestId : mtpRequestId)
  | unitCall
deriving DecidableEq, Repr

/-- The effect of running a user handler body: the user-level calls it made,
and whether it returned normally or threw. -/
abbrev HandlerRun (Resp : Type) := List (UserCall Resp) × Except HandlerExn Unit

/-- The body of the lambda installed by
`ConcurrentSender::RequestBuilder::setDoneHandler` (header lines 190-198),
before the surrounding `try`/`catch`: reinterpret the raw result bytes and
`Response::read` them — a failed read throws — then invoke the full-shape
user handler with `(requestId, data)`.  `Response::read` is external
(mtproto scheme), so decoding is the parameter `decode`. -/
def doneBody {Resp : Type} (decode : List Nat → Option Resp)
    (invoke : mtpRequestId → Resp → HandlerRun Resp)
    (requestId : mtpRequestId) (result : List Nat) : HandlerRun Resp :=
  match decode result with
  | none => ([], Except.error HandlerExn.exn)
  | some data => invoke requestId data

/-- The `catch (...) {}` of header lines 199-200: absorbs any exception the
enclosed body threw, keeping the calls the body performed before throwing;
nothing propagates (the return type has no exception component). -/
def catchAll {Resp : Type} (run : HandlerRun Resp) : List (UserCall Resp) :=
  run.1

/-- `ConcurrentSender::RequestBuilder::setDoneHandler` (header lines
187-202): the canonical done callback, a `try { decode; invoke } catch (...) {}`
around the full-shape user handler. -/
def setDoneHandler {Resp : Type} (decode : List Nat → Option Resp)
    (invoke : mtpRequestId → Resp → HandlerRun Resp)
    (requestId : mtpRequestId) (result : List Nat) : List (UserCall Resp) :=
  catchAll (doneBody decode invoke requestId result)

/-- `ConcurrentSender::RequestBuilder::setFailHandler` (header lines
204-208): stores the full-shape fail handler unchanged — no decode, no
`try`/`catch`. -/
def setFailHandler (invoke : mtpRequestId → RPCError → HandlerRun RPCError) :
    mtpRequestId → RPCError → HandlerRun RPCError :=
  invoke

/-- A user-supplied done callable, as seen by the four
`rpl::details::is_callable_plain_v` probes of
`SpecificRequestBuilder::done` (header lines 236-246): for each of the four
recognized shapes, `some` interpretation when the callable accepts that
argument list, `none` when it does not. -/
structure DoneCallable (Resp : Type) where
  full : Option (mtpRequestId → Resp → HandlerRun Resp)
  resp : Option (Resp → HandlerRun Resp)
  onlyId : Option (mtpRequestId → HandlerRun Resp)
  unitCall : Option (Unit → HandlerRun Resp)

/-- A user-supplied fail callable, as seen by the probes of
`SpecificRequestBuilder::fail` (header lines 278-288). -/
structure FailCallable where
  full : Option (mtpRequestId → RPCError → HandlerRun RPCError)
  err : Option (RPCError → HandlerRun RPCError)
  onlyId : Option (mtpRequestId → HandlerRun RPCError)
  unitCall : Option (Unit → HandlerRun RPCError)

/-- The `if constexpr` cascade of `SpecificRequestBuilder::done` (header
lines 248-270): first structural match wins, in the order full, response,
request-id, nullary; each reduced-arity shape is wrapped into the canonical
full shape exactly as the corresponding lambda in the source; no match is
the `static_assert(false_t(Handler{}), "Bad done handler.")` branch,
returned as `none`. -/
def doneSelect {Resp : Type} (handler : DoneCallable Resp) :
    Option (mtpRequestId → Resp → HandlerRun Resp) :=
  match handler.full with
  | some f => some f
  | none =>
    match handler.resp with
    | some f => some (fun _requestId result => f result)
    | none =>
      match handler.onlyId with
      | some f => some (fun requestId _result => f requestId)
      | none =>
        match handler.unitCall with
        | some f => some (fun _requestId _result => f ())
        | none => none

/-- The `if constexpr` cascade of `SpecificRequestBuilder::fail` (header
lines 290-312), same precedence with `RPCError` in place of the response. -/
def failSelect (handler : FailCallable) :
    Option (mtpRequestId → RPCError → HandlerRun RPCError) :=
  match handler.full with
  | some f => some f
  | none =>
    match handler.err with
    | some f => some (fun _requestId error => f error)
    | none =>
      match handler.onlyId with
      | some f => some (fun requestId _error => f requestId)
      | none =>
        match handler.unitCall with
        | some f => some (fun _requestId _error => f ())
        | none => none

/-- A handler-shape mismatch surfaced at construction time: the
`static_assert` branches of `done`/`fail` (header lines 269 and 311). -/
inductive BuildError where
  | badDoneHandler
  | badFailHandler
deriving DecidableEq, Repr

/-- `SpecificRequestBuilder::done` as the construction step: selecting an
adapter succeeds, hitting the `static_assert` is a construction-time
error — the builder is never produced, so no request carrying the handler
can be sent. -/
def doneChecked {Resp : Type} (handler : DoneCallable Resp) :
    Except BuildError (mtpRequestId → Resp → HandlerRun Resp) :=
  match doneSelect handler with
  | some f => Except.ok f
  | none => Except.error BuildError.badDoneHandler

/-- `SpecificRequestBuilder::fail` as the construction step, mirroring
`doneChecked`. -/
def failChecked (handler : FailCallable) :
    Except BuildError (mtpRequestId → RPCError → HandlerRun RPCError) :=
  match failSelect handler with
  | some f => Except.ok f
  | none => Except.error BuildError.badFailHandler

/-! ## Pending registry and dispatcher

Modelled from the spec: the bodies of `senderRequestRegister`,
`senderRequestDone`, `senderRequestFail`, `senderRequestCancel` and
`senderRequestCancelAll` (declared at header lines 163-171) live in the
missing `concurrent_sender.cpp`; spec section 4.3 defines them.  The
registry is the `base::flat_map<mtpRequestId, Handlers> _requests` (header
line 174), a keys-unique map, modelled as an association list.  The stored
canonical handlers are opaque values of types `δ` (done) and `φ` (fail);
the dispatcher reports each canonical-callback invocation as an `Event`
carrying the stored handler, so the event list observes exactly which
handlers fire and with what arguments. -/

/-- `ConcurrentSender::Handlers` (header lines 37-40) together with the
request's fail-skip policy, which in the source is captured into the stored
fail handler at `send` (the `RequestBuilder::_failSkipPolicy`, header line
78) and here is recorded on the registry entry (spec section 3). -/
structure Handlers (δ φ : Type) where
  done : δ
  fail : φ
  failSkipPolicy : FailSkipPolicy

/-- The mutable state of a `ConcurrentSender`: its `_requests` registry
(header line 174). -/
structure SenderState (δ φ : Type) where
  requests : List (mtpRequestId × Handlers δ φ)

/-- Registry lookup by request id (first entry with the key). -/
def lookupRequest {δ φ : Type} :
    List (mtpRequestId × Handlers δ φ) → mtpRequestId → Option (Handlers δ φ)
  | [], _ => none
  | (k, v) :: rest, requestId =>
    if k = requestId then some v else lookupRequest rest requestId

/-- Registry erasure by request id (removes every entry with the key; on a
keys-unique `flat_map` this is the single `remove`). -/
def removeRequest {δ φ : Type} :
    List (mtpRequestId × Handlers δ φ) → mtpRequestId → List (mtpRequestId × Handlers δ φ)
  | [], _ => []
  | (k, v) :: rest, requestId =>
    if k = requestId then removeRequest rest requestId
    else (k, v) :: removeRequest rest requestId

/-- One canonical-callback invocation performed by the dispatcher, carrying
the handler value that was stored in (and moved out of) the registry. -/
inductive Event (δ φ : Type) where
  | invokeDone (requestId : mtpRequestId) (handler : δ) (result : List Nat)
  | invokeFail (requestId : mtpRequestId) (handler : φ) (error : RPCError)

/-- Modelled from the spec: `senderRequestRegister` (spec section 4.3)
inserts the handler pair under a fresh id. -/
def senderRequestRegister {δ φ : Type} (st : SenderState δ φ)
    (requestId : mtpRequestId) (handlers : Handlers δ φ) : SenderState δ φ :=
  ⟨(requestId, handlers) :: st.requests⟩

/-- Modelled from the spec: `senderRequestDone` (spec section 4.3) — look up
the id; if absent, no-op; if present, remove the entry first, then invoke
the stored done callback with the raw result bytes. -/
def senderRequestDone {δ φ : Type} (st : SenderState δ φ)
    (requestId : mtpRequestId) (result : List Nat) :
    SenderState δ φ × List (Event δ φ) :=
  match lookupRequest st.requests requestId with
  | none => (st, [])
  | some handlers =>
    (⟨removeRequest st.requests requestId⟩,
     [Event.invokeDone requestId handlers.done result])

/-- Modelled from the spec: `senderRequestFail` (spec section 4.3) — look up
the id; if absent, no-op; if present, remove the entry, then apply the
fail-skip policy: a suppressed class invokes nothing, a forwarded class
invokes the stored fail callback once. -/
def senderRequestFail {δ φ : Type} (st : SenderState δ φ)
    (requestId : mtpRequestId) (error : RPCError) :
    SenderState δ φ × List (Event δ φ) :=
  match lookupRequest st.requests requestId with
  | none => (st, [])
  | some handlers =>
    (⟨removeRequest st.requests requestId⟩,
     if forwardedToFailHandler handlers.failSkipPolicy error.errorClass then
       [Event.invokeFail requestId handlers.fail error]
     else [])

/-- Modelled from the spec: `senderRequestCancel` (spec section 4.3) —
remove the entry if present, invoking neither callback. -/
def senderRequestCancel {δ φ : Type} (st : SenderState δ φ)
    (requestId : mtpRequestId) : SenderState δ φ × List (Event δ φ) :=
  (⟨removeRequest st.requests requestId⟩, [])

/-- `ConcurrentSender::SentRequestWrap::cancel` (header lines 125-127):
delegates to `senderRequestCancel` for the wrapped id. -/
def sentRequestWrapCancel {δ φ : Type} (st : SenderState δ φ)
    (requestId : mtpRequestId) : SenderState δ φ × List (Event δ φ) :=
  senderRequestCancel st requestId

/-- Modelled from the spec: `senderRequestCancelAll` (spec section 4.3),
called from `~ConcurrentSender` (header line 153) — remove every remaining
entry without invoking any callback. -/
def senderRequestCancelAll {δ φ : Type} (_st : SenderState δ φ) :
    SenderState δ φ × List (Event δ φ) :=
  (⟨[]⟩, [])

/-! ## Cross-context marshaling -/

/-- Modelled from the spec: the liveness token that `crl::weak_on_queue`
checks before running a deferred callback (spec sections 2, 5 and 6); the
owner flips it to dead at destruction. -/
structure OwnerToken where
  alive : Bool

/-- The `_run` function built by the `weak_on_queue` constructor (header
lines 178-185): defer a method onto the owner's context, running it only if
the owner is still alive; otherwise drop it silently, leaving the state
untouched.  The `weak.with` primitive itself is external (crl), modelled
from the spec's `runOnOwner` (spec section 6). -/
def runOnOwner {δ φ : Type} (token : OwnerToken) (st : SenderState δ φ)
    (method : SenderState δ φ → SenderState δ φ × List (Event δ φ)) :
    SenderState δ φ × List (Event δ φ) :=
  if token.alive then method st else (st, [])

/-- Modelled from the spec: a done delivery arriving from the transport is
marshaled through `_run` onto the owner context (spec sections 5 and 6). -/
def transportDeliverDone {δ φ : Type} (token : OwnerToken)
    (st : SenderState δ φ) (requestId : mtpRequestId) (result : List Nat) :
    SenderState δ φ × List (Event δ φ) :=
  runOnOwner token st (fun s => senderRequestDone s requestId result)

/-- Modelled from the spec: a fail delivery arriving from the transport is
marshaled through `_run` onto the owner context (spec sections 5 and 6). -/
def transportDeliverFail {δ φ : Type} (token : OwnerToken)
    (st : SenderState δ φ) (requestId : mtpRequestId) (error : RPCError) :
    SenderState δ φ × List (Event δ φ) :=
  runOnOwner token st (fun s => senderRequestFail s requestId error)

/-! ## Registry lemmas -/

theorem lookupRequest_removeRequest_self {δ φ : Type}
    (l : List (mtpRequestId × Handlers δ φ)) (requestId : mtpRequestId) :
    lookupRequest (removeRequest l requestId) requestId = none := by
  induction l with
  | nil => rfl
  | cons p rest ih =>
    obtain ⟨k, v⟩ := p
    by_cases hk : k = requestId
    · simp [removeRequest, hk, ih]
    · simp [removeRequest, lookupRequest, hk, ih]

theorem removeRequest_of_lookup_none {δ φ : Type}
    (l : List (mtpRequestId × Handlers δ φ)) (requestId : mtpRequestId)
    (h : lookupRequest l requestId = none) :
    removeRequest l requestId = l := by
  induction l with
  | nil => rfl
  | cons p rest ih =>
    obtain ⟨k, v⟩ := p
    by_cases hk : k = requestId
    · simp [lookupRequest, hk] at h
    · simp [lookupRequest, hk] at h
      simp [removeRequest, hk, ih h]

theorem removeRequest_removeRequest_self {δ φ : Type}
    (l : List (mtpRequestId × Handlers δ φ)) (requestId : mtpRequestId) :
    removeRequest (removeRequest l requestId) requestId
      = removeRequest l requestId :=
  removeRequest_of_lookup_none _ _ (lookupRequest_removeRequest_self l requestId)

theorem senderRequestDone_lookup_none {δ φ : Type} (st : SenderState δ φ)
    (requestId : mtpRequestId) (result : List Nat) :
    lookupRequest (senderRequestDone st requestId result).1.requests requestId
      = none := by
  cases h : lookupRequest st.requests requestId with
  | none => simp [senderRequestDone, h]
  | some handlers =>
    simp [senderRequestDone, h, lookupRequest_removeRequest_self]

theorem senderRequestFail_lookup_none {δ φ : Type} (st : SenderState δ φ)
    (requestId : mtpRequestId) (error : RPCError) :
    lookupRequest (senderRequestFail st requestId error).1.requests requestId
      = none := by
  cases h : lookupRequest st.requests requestId with
  | none => simp [senderRequestFail, h]
  | some handlers =>
    simp [senderRequestFail, h, lookupRequest_removeRequest_self]

theorem senderRequestCancel_lookup_none {δ φ : Type} (st : SenderState δ φ)
    (requestId : mtpRequestId) :
    lookupRequest (senderRequestCancel st requestId).1.requests requestId
      = none := by
  simp [senderRequestCancel, lookupRequest_removeRequest_self]

theorem senderRequestDone_absent {δ φ : Type} (st : SenderState δ φ)
    (requestId : mtpRequestId) (result : List Nat)
    (h : lookupRequest st.requests requestId = none) :
    senderRequestDone st requestId result = (st, []) := by
  simp [senderRequestDone, h]

theorem senderRequestFail_absent {δ φ : Type} (st : SenderState δ φ)
    (requestId : mtpRequestId) (error : RPCError)
    (h : lookupRequest st.requests requestId = none) :
    senderRequestFail st requestId error = (st, []) := by
  simp [senderRequestFail, h]

theorem senderRequestCancel_absent {δ φ : Type} (st : SenderState δ φ)
    (requestId : mtpRequestId)
    (h : lookupRequest st.requests requestId = none) :
    senderRequestCancel st requestId = (st, []) := by
  cases st with
  | mk requests =>
    simp [senderRequestCancel, removeRequest_of_lookup_none requests requestId h]

/-! ## Sample data for witnesses -/

def sampleHandlers (policy : FailSkipPolicy) : Handlers Nat Nat :=
  ⟨7, 9, policy⟩

def sampleState (policy : FailSkipPolicy) : SenderState Nat Nat :=
  ⟨[(1, sampleHandlers policy)]⟩

/-! ## Claim theorems -/

/-- C1: for every request id, at most one terminal outcome is ever observed.
A done delivery invokes at most one canonical callback and leaves the
registry without the id; on the resulting state — the state every
re-entrant delivery during the handler call runs against, since removal
precedes invocation — any further done, fail or cancel for the id is a
no-op invoking no handler.  The same holds after a fail delivery and after
a cancellation, and every operation on an absent id is a no-op. -/
theorem c1_exactly_once_terminal {δ φ : Type} (st : SenderState δ φ)
    (requestId : mtpRequestId) (result : List Nat) (error : RPCError) :
    ((senderRequestDone st requestId result).2.length ≤ 1
      ∧ lookupRequest (senderRequestDone st requestId result).1.requests
          requestId = none
      ∧ (∀ r₂, senderRequestDone (senderRequestDone st requestId result).1
            requestId r₂ = ((senderRequestDone st requestId result).1, []))
      ∧ (∀ e₂, senderRequestFail (senderRequestDone st requestId result).1
            requestId e₂ = ((senderRequestDone st requestId result).1, []))
      ∧ senderRequestCancel (senderRequestDone st requestId result).1
            requestId = ((senderRequestDone st requestId result).1, []))
    ∧ (lookupRequest (senderRequestFail st requestId error).1.requests
          requestId = none
      ∧ (∀ r₂, senderRequestDone (senderRequestFail st requestId error).1
            requestId r₂ = ((senderRequestFail st requestId error).1, []))
      ∧ (∀ e₂, senderRequestFail (senderRequestFail st requestId error).1
            requestId e₂ = ((senderRequestFail st requestId error).1, [])))
    ∧ (lookupRequest (senderRequestCancel st requestId).1.requests
          requestId = none
      ∧ (∀ r₂, senderRequestDone (senderRequestCancel st requestId).1
            requestId r₂ = ((senderRequestCancel st requestId).1, []))
      ∧ (∀ e₂, senderRequestFail (senderRequestCancel st requestId).1
            requestId e₂ = ((senderRequestCancel st requestId).1, [])))
    ∧ (lookupRequest st.requests requestId = none →
        senderRequestDone st requestId result = (st, [])
      ∧ senderRequestFail st requestId error = (st, [])
      ∧ senderRequestCancel st requestId = (st, [])) := by
  refine ⟨⟨?_, senderRequestDone_lookup_none st requestId result, ?_, ?_, ?_⟩,
    ⟨senderRequestFail_lookup_none st requestId error, ?_, ?_⟩,
    ⟨senderRequestCancel_lookup_none st requestId, ?_, ?_⟩, ?_⟩
  · cases h : lookupRequest st.requests requestId <;> simp [senderRequestDone, h]
  · intro r₂
    exact senderRequestDone_absent _ _ _
      (senderRequestDone_lookup_none st requestId result)
  · intro e₂
    exact senderRequestFail_absent _ _ _
      (senderRequestDone_lookup_none st requestId result)
  · exact senderRequestCancel_absent _ _
      (senderRequestDone_lookup_none st requestId result)
  · intro r₂
    exact senderRequestDone_absent _ _ _
      (senderRequestFail_lookup_none st requestId error)
  · intro e₂
    exact senderRequestFail_absent _ _ _
      (senderRequestFail_lookup_none st requestId error)
  · intro r₂
    exact senderRequestDone_absent _ _ _
      (senderRequestCancel_lookup_none st requestId)
  · intro e₂
    exact senderRequestFail_absent _ _ _
      (senderRequestCancel_lookup_none st requestId)
  · intro h
    exact ⟨senderRequestDone_absent _ _ _ h, senderRequestFail_absent _ _ _ h,
      senderRequestCancel_absent _ _ h⟩

/-- C1 witness: on a concrete one-entry registry, a done delivery emits at
most one canonical-callback invocation. -/
theorem c1_exactly_once_terminal_witness :
    (senderRequestDone (sampleState FailSkipPolicy.Simple) 1 []).2.length ≤ 1 :=
  (c1_exactly_once_terminal (sampleState FailSkipPolicy.Simple) 1 []
    ⟨ErrorClass.flood⟩).1.1

/-- C4: for a pending request, a fail delivery invokes the stored fail
handler exactly once under `HandleAll` for any error class, exactly once
under `HandleFlood` for a flood-class failure, and zero times under the
default `Simple` policy for a flood-class (suppressed) failure. -/
theorem c4_failSkipPolicy {δ φ : Type} (st : SenderState δ φ)
    (requestId : mtpRequestId) (error : RPCError) (handlers : Handlers δ φ)
    (h : lookupRequest st.requests requestId = some handlers) :
    (handlers.failSkipPolicy = FailSkipPolicy.HandleAll →
      (senderRequestFail st requestId error).2
        = [Event.invokeFail requestId handlers.fail error])
  ∧ (handlers.failSkipPolicy = FailSkipPolicy.HandleFlood →
      error.errorClass = ErrorClass.flood →
      (senderRequestFail st requestId error).2
        = [Event.invokeFail requestId handlers.fail error])
  ∧ (handlers.failSkipPolicy = FailSkipPolicy.Simple →
      error.errorClass = ErrorClass.flood →
      (senderRequestFail st requestId error).2 = []) := by
  refine ⟨?_, ?_, ?_⟩
  · intro hp
    simp [senderRequestFail, h, hp, forwardedToFailHandler]
  · intro hp he
    simp [senderRequestFail, h, hp, he, forwardedToFailHandler]
  · intro hp he
    simp [senderRequestFail, h, hp, he, forwardedToFailHandler]

/-- C4 witness: on concrete one-entry registries, a flood-class failure
fires the fail handler once under `HandleAll` and zero times under
`Simple`. -/
theorem c4_failSkipPolicy_witness :
    lookupRequest (sampleState FailSkipPolicy.HandleAll).requests 1
        = some (sampleHandlers FailSkipPolicy.HandleAll)
  ∧ (senderRequestFail (sampleState FailSkipPolicy.HandleAll) 1
        ⟨ErrorClass.flood⟩).2
      = [Event.invokeFail 1 (sampleHandlers FailSkipPolicy.HandleAll).fail
          ⟨ErrorClass.flood⟩]
  ∧ (senderRequestFail (sampleState FailSkipPolicy.Simple) 1
        ⟨ErrorClass.flood⟩).2 = [] :=
  ⟨rfl,
   (c4_failSkipPolicy (sampleState FailSkipPolicy.HandleAll) 1
      ⟨ErrorClass.flood⟩ (sampleHandlers FailSkipPolicy.HandleAll)
      rfl).1 rfl,
   (c4_failSkipPolicy (sampleState FailSkipPolicy.Simple) 1
      ⟨ErrorClass.flood⟩ (sampleHandlers FailSkipPolicy.Simple)
      rfl).2.2 rfl rfl⟩

/-- C5: `cancelAll` (run at sender destruction) empties the registry and
invokes zero handlers, and on the emptied state any later-arriving done or
fail delivery is a no-op reaching no handler. -/
theorem c5_cancelAll_silent {δ φ : Type} (st : SenderState δ φ)
    (requestId : mtpRequestId) (result : List Nat) (error : RPCError) :
    (senderRequestCancelAll st).2 = []
  ∧ (senderRequestCancelAll st).1.requests = []
  ∧ senderRequestDone (senderRequestCancelAll st).1 requestId result
      = ((senderRequestCancelAll st).1, [])
  ∧ senderRequestFail (senderRequestCancelAll st).1 requestId error
      = ((senderRequestCancelAll st).1, []) := by
  refine ⟨rfl, rfl, ?_, ?_⟩
  · exact senderRequestDone_absent _ _ _ rfl
  · exact senderRequestFail_absent _ _ _ rfl

/-- C5 witness: on a concrete in-flight registry, `cancelAll` invokes zero
handlers and empties the registry. -/
theorem c5_cancelAll_silent_witness :
    (senderRequestCancelAll (sampleState FailSkipPolicy.Simple)).2 = []
  ∧ (senderRequestCancelAll (sampleState FailSkipPolicy.Simple)).1.requests
      = [] :=
  ⟨(c5_cancelAll_silent (sampleState FailSkipPolicy.Simple) 1 []
      ⟨ErrorClass.flood⟩).1,
   (c5_cancelAll_silent (sampleState FailSkipPolicy.Simple) 1 []
      ⟨ErrorClass.flood⟩).2.1⟩

/-- C6: `SentRequestWrap::cancel` removes the registry entry if present,
invokes neither callback, and is idempotent: cancelling the same id again
changes nothing and invokes nothing, and cancelling an absent (already
resolved or never registered) id leaves the registry unchanged. -/
theorem c6_cancel_idempotent {δ φ : Type} (st : SenderState δ φ)
    (requestId : mtpRequestId) :
    (sentRequestWrapCancel st requestId).2 = []
  ∧ lookupRequest (sentRequestWrapCancel st requestId).1.requests requestId
      = none
  ∧ sentRequestWrapCancel (sentRequestWrapCancel st requestId).1 requestId
      = ((sentRequestWrapCancel st requestId).1, [])
  ∧ (lookupRequest st.requests requestId = none →
      sentRequestWrapCancel st requestId = (st, [])) := by
  refine ⟨rfl, senderRequestCancel_lookup_none st requestId, ?_, ?_⟩
  · exact senderRequestCancel_absent _ _
      (senderRequestCancel_lookup_none st requestId)
  · intro h
    exact senderRequestCancel_absent _ _ h

/-- C6 witness: cancelling a concrete registered id invokes no callback and
removes the entry. -/
theorem c6_cancel_idempotent_witness :
    (sentRequestWrapCancel (sampleState FailSkipPolicy.Simple) 1).2 = []
  ∧ lookupRequest
      (sentRequestWrapCancel (sampleState FailSkipPolicy.Simple) 1).1.requests
      1 = none :=
  ⟨(c6_cancel_idempotent (sampleState FailSkipPolicy.Simple) 1).1,
   (c6_cancel_idempotent (sampleState FailSkipPolicy.Simple) 1).2.1⟩

/-! ## Probe handlers for witnesses: record exactly the call they receive. -/

def probeFull {Resp : Type} : mtpRequestId → Resp → HandlerRun Resp :=
  fun requestId result => ([UserCall.full requestId result], Except.ok ())

def probeResp {Resp : Type} : Resp → HandlerRun Resp :=
  fun result => ([UserCall.resp result], Except.ok ())

def probeId {Resp : Type} : mtpRequestId → HandlerRun Resp :=
  fun requestId => ([UserCall.onlyId requestId], Except.ok ())

def probeUnit {Resp : Type} : Unit → HandlerRun Resp :=
  fun _ => ([UserCall.unitCall], Except.ok ())

def probeThrowing {Resp : Type} : mtpRequestId → Resp → HandlerRun Resp :=
  fun requestId result =>
    ([UserCall.full requestId result], Except.error HandlerExn.exn)

/-- C2: a done delivery whose raw bytes fail to decode invokes the user's
done handler zero times — the canonical done adapter returns an empty call
trace — and, its codomain having no exception component, propagates no
error out of the done-delivery path. -/
theorem c2_decode_failure_fail_closed {Resp : Type}
    (decode : List Nat → Option Resp)
    (invoke : mtpRequestId → Resp → HandlerRun Resp)
    (requestId : mtpRequestId) (result : List Nat)
    (h : decode result = none) :
    setDoneHandler decode invoke requestId result = [] := by
  simp [setDoneHandler, doneBody, catchAll, h]

/-- C2 witness: a concrete decoder that rejects its input yields zero
user-handler calls. -/
theorem c2_decode_failure_fail_closed_witness :
    (fun _ : List Nat => (none : Option Unit)) [] = none
  ∧ setDoneHandler (fun _ : List Nat => (none : Option Unit))
      probeFull 1 [] = [] :=
  ⟨rfl, c2_decode_failure_fail_closed _ probeFull 1 [] rfl⟩

/-- C3: `done`/`fail` adapt each of the four recognized handler shapes into
the canonical two-argument callback, selecting by first structural match in
the order full, response/error, request-id, nullary; and when the canonical
done callback runs with a decodable result (respectively, when the
canonical fail callback runs with an error), the user handler is invoked
exactly once with exactly the arguments its shape takes. -/
theorem c3_handler_shapes {Resp : Type}
    (decode : List Nat → Option Resp)
    (ff : mtpRequestId → Resp → HandlerRun Resp)
    (fr : Resp → HandlerRun Resp)
    (fi : mtpRequestId → HandlerRun Resp)
    (fn : Unit → HandlerRun Resp)
    (gf : mtpRequestId → RPCError → HandlerRun RPCError)
    (gr : RPCError → HandlerRun RPCError)
    (gi : mtpRequestId → HandlerRun RPCError)
    (gn : Unit → HandlerRun RPCError)
    (requestId : mtpRequestId) (result : List Nat) (data : Resp)
    (error : RPCError)
    (hdecode : decode result = some data) :
    doneSelect ⟨some ff, some fr, some fi, some fn⟩ = some ff
  ∧ doneSelect ⟨none, some fr, some fi, some fn⟩
      = some (fun _requestId r => fr r)
  ∧ doneSelect ⟨none, none, some fi, some fn⟩
      = some (fun requestId _r => fi requestId)
  ∧ doneSelect ⟨none, none, none, some fn⟩
      = some (fun _requestId _r => fn ())
  ∧ failSelect ⟨some gf, some gr, some gi, some gn⟩ = some gf
  ∧ failSelect ⟨none, some gr, some gi, some gn⟩
      = some (fun _requestId e => gr e)
  ∧ failSelect ⟨none, none, some gi, some gn⟩
      = some (fun requestId _e => gi requestId)
  ∧ failSelect ⟨none, none, none, some gn⟩
      = some (fun _requestId _e => gn ())
  ∧ setDoneHandler decode ff requestId result = (ff requestId data).1
  ∧ setDoneHandler decode (fun _requestId r => fr r) requestId result
      = (fr data).1
  ∧ setDoneHandler decode (fun requestId _r => fi requestId) requestId result
      = (fi requestId).1
  ∧ setDoneHandler decode (fun _requestId _r => fn ()) requestId result
      = (fn ()).1
  ∧ setFailHandler gf requestId error = gf requestId error
  ∧ setFailHandler (fun _requestId e => gr e) requestId error = gr error
  ∧ setFailHandler (fun requestId _e => gi requestId) requestId error
      = gi requestId
  ∧ setFailHandler (fun _requestId _e => gn ()) requestId error = gn () := by
  refine ⟨rfl, rfl, rfl, rfl, rfl, rfl, rfl, rfl, ?_, ?_, ?_, ?_,
    rfl, rfl, rfl, rfl⟩ <;>
    simp [setDoneHandler, doneBody, catchAll, hdecode]

/-- C3 witness: at a concrete decoder and concrete probe handlers, the
full-shape handler wins the structural match. -/
theorem c3_handler_shapes_witness :
    (fun _ : List Nat => some (5 : Nat)) [] = some 5
  ∧ doneSelect
      (⟨some probeFull, some probeResp, some probeId, some probeUnit⟩ :
        DoneCallable Nat)
      = some probeFull :=
  ⟨rfl,
   (c3_handler_shapes (fun _ : List Nat => some (5 : Nat))
      probeFull probeResp probeId probeUnit
      probeFull probeResp probeId probeUnit
      1 [] 5 ⟨ErrorClass.flood⟩ rfl).1⟩

/-- C7: a handler callable matching none of the four recognized shapes is
rejected at construction time — `done`/`fail` hit the `static_assert`
branch, modelled as a construction-time `BuildError`, so no canonical
handler is ever produced and no request carrying it can be sent — and any
callable matching at least one shape is accepted. -/
theorem c7_bad_handler_rejected {Resp : Type} (hd : DoneCallable Resp)
    (hf : FailCallable) :
    (doneChecked hd = Except.error BuildError.badDoneHandler
      ↔ hd.full = none ∧ hd.resp = none ∧ hd.onlyId = none
        ∧ hd.unitCall = none)
  ∧ ((∃ f, doneChecked hd = Except.ok f)
      ↔ ¬(hd.full = none ∧ hd.resp = none ∧ hd.onlyId = none
        ∧ hd.unitCall = none))
  ∧ (failChecked hf = Except.error BuildError.badFailHandler
      ↔ hf.full = none ∧ hf.err = none ∧ hf.onlyId = none
        ∧ hf.unitCall = none)
  ∧ ((∃ f, failChecked hf = Except.ok f)
      ↔ ¬(hf.full = none ∧ hf.err = none ∧ hf.onlyId = none
        ∧ hf.unitCall = none)) := by
  obtain ⟨f, r, i, u⟩ := hd
  obtain ⟨f₂, e₂, i₂, u₂⟩ := hf
  refine ⟨?_, ?_, ?_, ?_⟩ <;>
    cases f <;> cases r <;> cases i <;> cases u <;>
    cases f₂ <;> cases e₂ <;> cases i₂ <;> cases u₂ <;>
    simp [doneChecked, doneSelect, failChecked, failSelect]

/-- C7 witness: the callable accepting no shape is rejected at
construction. -/
theorem c7_bad_handler_rejected_witness :
    doneChecked (⟨none, none, none, none⟩ : DoneCallable Unit)
      = Except.error BuildError.badDoneHandler :=
  (c7_bad_handler_rejected (⟨none, none, none, none⟩ : DoneCallable Unit)
    ⟨none, none, none, none⟩).1.mpr ⟨rfl, rfl, rfl, rfl⟩

/-- C8: deliveries from the transport are marshaled through the `_run`
scheduling primitive, which checks owner liveness first: with a dead owner
the scheduled callback is dropped silently — state untouched, zero handler
invocations — and with a live owner it runs the dispatcher unchanged on the
owner's context. -/
theorem c8_owner_liveness {δ φ : Type} (token : OwnerToken)
    (st : SenderState δ φ) (requestId : mtpRequestId) (result : List Nat)
    (error : RPCError) :
    (token.alive = false →
        transportDeliverDone token st requestId result = (st, [])
      ∧ transportDeliverFail token st requestId error = (st, []))
  ∧ (token.alive = true →
        transportDeliverDone token st requestId result
          = senderRequestDone st requestId result
      ∧ transportDeliverFail token st requestId error
          = senderRequestFail st requestId error) := by
  refine ⟨?_, ?_⟩ <;> intro h <;>
    exact ⟨by simp [transportDeliverDone, runOnOwner, h],
      by simp [transportDeliverFail, runOnOwner, h]⟩

/-- C8 witness: with a concrete dead owner token, a delivery is dropped
silently. -/
theorem c8_owner_liveness_witness :
    (OwnerToken.mk false).alive = false
  ∧ transportDeliverDone ⟨false⟩ (sampleState FailSkipPolicy.Simple) 1 []
      = (sampleState FailSkipPolicy.Simple, []) :=
  ⟨rfl,
   ((c8_owner_liveness ⟨false⟩ (sampleState FailSkipPolicy.Simple) 1 []
      ⟨ErrorClass.flood⟩).1 rfl).1⟩

/-- C9: the `try`/`catch` of the canonical done adapter encloses the user
handler invocation itself, not only the decoding: after a successful
decode, a user handler that throws is still invoked (its recorded calls are
exactly what the adapter returns) and the exception is absorbed, never
propagating out of the done-delivery path. -/
theorem c9_catch_encloses_invocation {Resp : Type}
    (decode : List Nat → Option Resp)
    (invoke : mtpRequestId → Resp → HandlerRun Resp)
    (requestId : mtpRequestId) (result : List Nat) (data : Resp)
    (calls : List (UserCall Resp)) (e : HandlerExn)
    (hdecode : decode result = some data)
    (hthrow : invoke requestId data = (calls, Except.error e)) :
    setDoneHandler decode invoke requestId result = calls := by
  simp [setDoneHandler, doneBody, catchAll, hdecode, hthrow]

/-- C9 witness: a concrete throwing handler is invoked exactly once — its
single recorded call survives — and nothing propagates. -/
theorem c9_catch_encloses_invocation_witness :
    (fun _ : List Nat => some ()) [] = some ()
  ∧ (probeThrowing : mtpRequestId → Unit → HandlerRun Unit) 1 ()
      = ([UserCall.full 1 ()], Except.error HandlerExn.exn)
  ∧ setDoneHandler (fun _ : List Nat => some ()) probeThrowing 1 []
      = [UserCall.full 1 ()] :=
  ⟨rfl, rfl,
   c9_catch_encloses_invocation (fun _ : List Nat => some ()) probeThrowing
     1 [] () [UserCall.full 1 ()] HandlerExn.exn rfl rfl⟩

/-- C10: every reduced-arity done shape — response-only, id-only,
nullary — is adapted through the same `setDoneHandler` decode path as the
full shape, so a decode failure suppresses the user invocation for all four
shapes alike: each selection yields a canonical handler (`some`), and its
call trace on undecodable bytes is empty. -/
theorem c10_reduced_arity_still_decodes {Resp : Type}
    (decode : List Nat → Option Resp)
    (ff : mtpRequestId → Resp → HandlerRun Resp)
    (fr : Resp → HandlerRun Resp)
    (fi : mtpRequestId → HandlerRun Resp)
    (fn : Unit → HandlerRun Resp)
    (requestId : mtpRequestId) (result : List Nat)
    (h : decode result = none) :
    (doneSelect ⟨some ff, none, none, none⟩).map
        (fun g => setDoneHandler decode g requestId result) = some []
  ∧ (doneSelect ⟨none, some fr, none, none⟩).map
        (fun g => setDoneHandler decode g requestId result) = some []
  ∧ (doneSelect ⟨none, none, some fi, none⟩).map
        (fun g => setDoneHandler decode g requestId result) = some []
  ∧ (doneSelect ⟨none, none, none, some fn⟩).map
        (fun g => setDoneHandler decode g requestId result) = some [] := by
  refine ⟨?_, ?_, ?_, ?_⟩ <;>
    simp [doneSelect, setDoneHandler, doneBody, catchAll, h]

/-- C10 witness: with a concrete rejecting decoder, the response-only shape
is selected and fires zero user calls. -/
theorem c10_reduced_arity_still_decodes_witness :
    (fun _ : List Nat => (none : Option Nat)) [] = none
  ∧ (doneSelect ⟨none, some probeResp, none, none⟩).map
        (fun g => setDoneHandler (fun _ : List Nat => (none : Option Nat))
          g 1 []) = some [] :=
  ⟨rfl,
   (c10_reduced_arity_still_decodes (fun _ : List Nat => (none : Option Nat))
      probeFull probeResp probeId probeUnit 1 [] rfl).2.1⟩

end MTP
